import Mathlib

/-!
Shallow embedding of `jupyter_client/launcher.py` (functions
`launch_kernel`, `async_launch_kernel`, `prepare_process_args`,
`finish_process_launch`) and proofs about it.

Python dictionaries are modelled as association lists with unique keys
(`Dict`); assignment replaces the value of an existing key in place and
appends a fresh key at the end, exactly like a CPython dict preserves
insertion order.  Mutable aliasing (the caller's `env` dict being updated
in place by the launcher) is made explicit: `prepare_process_args` returns,
besides the spawn keyword dictionary, the final contents of the
caller-supplied `env` and `**kw` objects, so that "was the caller's mapping
mutated?" is a statable question.

Platform- and OS-dependent primitives (`sys.platform`, `sys.executable`
ending in `pythonw.exe`, `os.getpid`, `os.environ`, `os.defpath`,
`os.path.expanduser`, the handle values produced by `open(os.devnull,'w')`,
`DuplicateHandle` and `create_interrupt_event`, and the parent-side handle
of the pipe `Popen` creates for `stdin=PIPE`) are collected in a `Sys`
record and treated as parameters of the embedding.
-/

namespace Launcher

/-- A Python `dict` with string keys, as an association list with unique
keys.  Insertion order is preserved, as in CPython. -/
abbrev Dict (α : Type) := List (String × α)

/-- `d[k]` lookup (`None`-returning `d.get(k)` flavour). -/
def Dict.get? {α : Type} : Dict α → String → Option α
  | [], _ => none
  | (k2, v) :: rest, k => if k2 = k then some v else Dict.get? rest k

/-- `d[k] = v`: replace the value of an existing key in place, else append. -/
def Dict.set {α : Type} : Dict α → String → α → Dict α
  | [], k, v => [(k, v)]
  | (k2, v2) :: rest, k, v =>
      if k2 = k then (k, v) :: rest else (k2, v2) :: Dict.set rest k v

/-- The dict comprehension `{key: value for key, value in d.items() if key != k}`. -/
def Dict.without {α : Type} (d : Dict α) (k : String) : Dict α :=
  d.filter (fun p => p.1 ≠ k)

/-- The environment mapping (`env`, `os.environ`): `str → str`. -/
abbrev EnvDict := Dict String

/-- A standard-stream argument for `Popen`: `subprocess.PIPE`, the
file object `open(os.devnull, 'w')` (identified by its OS handle), or a
caller-supplied stream object (identified by an opaque id). -/
inductive StreamSpec where
  | pipe : StreamSpec
  | blackhole : Nat → StreamSpec
  | supplied : Nat → StreamSpec
  deriving DecidableEq, Repr

/-- A Python value stored in the spawn keyword dictionary. -/
inductive PyVal where
  | vNone : PyVal
  | vStream : StreamSpec → PyVal
  | vStr : String → PyVal
  | vEnv : EnvDict → PyVal
  | vBool : Bool → PyVal
  | vNat : Nat → PyVal
  | vOther : Nat → PyVal
  deriving DecidableEq, Repr

/-- Coerce a `PyVal` to an integer, as the int-typed uses in the source do
(`kwargs.setdefault('creationflags', 0)` is always an int there; a non-int
caller value would be a Python `TypeError`, which is out of scope). -/
def PyVal.asNat : PyVal → Nat
  | .vNat n => n
  | _ => 0

/-- The spawn keyword dictionary assembled by `prepare_process_args`. -/
abbrev Kwargs := Dict PyVal

/-- `_winapi.CREATE_NEW_PROCESS_GROUP`. -/
def CREATE_NEW_PROCESS_GROUP : Nat := 0x200

/-- The `CREATE_NO_WINDOW` literal `0x08000000` from the source. -/
def CREATE_NO_WINDOW : Nat := 0x08000000

/-- Platform- and process-wide values the launcher consults.
`interruptEvent` stands for the handle returned by
`win_interrupt.create_interrupt_event()` (modelled from the spec: the
module `win_interrupt` is not part of the sources; `prepare` creates a
named inheritable OS event object and returns an opaque numeric handle).
`dupHandle` stands for the handle returned by the `DuplicateHandle` call,
`stdinPipe` for the parent-side write end of the pipe `Popen` creates when
called with `stdin=PIPE`. -/
structure Sys where
  isWin32 : Bool
  windowed : Bool
  pid : Nat
  environ : EnvDict
  defpath : String
  devnull : Nat
  interruptEvent : Nat
  dupHandle : Nat
  stdinPipe : Nat
  expanduser : String → String

/-- The named parameters of `prepare_process_args` / `launch_kernel`
(everything but `cmd`).  `none` models the Python `None` default. -/
structure PrepInput where
  stdin : Option StreamSpec
  stdout : Option StreamSpec
  stderr : Option StreamSpec
  env : Option EnvDict
  independent : Bool
  cwd : Option String
  kw : Kwargs
  deriving DecidableEq, Repr

/-- What `prepare_process_args` returns and what it did to caller-owned
objects: the spawn keyword dict, the interrupt event (`None` on POSIX),
the final contents of the caller's `env` dict (it is aliased, not copied,
when supplied), the final contents of the caller's `**kw` dict, and the
discard-sink handle opened during the call, if any. -/
structure PrepResult where
  kwargs : Kwargs
  interrupt_event : Option Nat
  callerEnvAfter : Option EnvDict
  callerKwAfter : Kwargs
  blackhole : Option Nat
  deriving DecidableEq, Repr

/-- `PyVal` for an optional stream variable (`_stdout`/`_stderr` may be
Python `None`). -/
def optStreamVal : Option StreamSpec → PyVal
  | none => .vNone
  | some s => .vStream s

/-- `PyVal` for the optional `cwd` string. -/
def cwdVal : Option String → PyVal
  | none => .vNone
  | some c => .vStr c

/-- Embedding of `prepare_process_args` (launcher.py, lines 132-218). -/
def prepare_process_args (sys : Sys) (a : PrepInput) : PrepResult :=
  -- _stdin = PIPE if stdin is None else stdin
  let _stdin : StreamSpec := match a.stdin with
    | none => .pipe
    | some s => s
  -- redirect_out = sys.executable.endswith('pythonw.exe')
  let redirect_out := sys.windowed
  -- if redirect_out: blackhole = open(os.devnull, 'w'); _stdout/_stderr
  -- substituted when not supplied; else passed through unchanged
  let blackhole : Option Nat := if redirect_out then some sys.devnull else none
  let _stdout : Option StreamSpec :=
    if redirect_out then
      some (match a.stdout with
            | none => .blackhole sys.devnull
            | some s => s)
    else a.stdout
  let _stderr : Option StreamSpec :=
    if redirect_out then
      some (match a.stderr with
            | none => .blackhole sys.devnull
            | some s => s)
    else a.stderr
  -- env = env if (env is not None) else os.environ.copy()
  -- (when the caller supplied a dict, `env` aliases it: later item
  -- assignments mutate the caller's object)
  let env0 : EnvDict := a.env.getD sys.environ
  -- kwargs = kw.copy(); kwargs.update(main_args)
  let kwargs1 : Kwargs :=
    ((((a.kw.set "stdin" (.vStream _stdin)).set "stdout" (optStreamVal _stdout)).set
        "stderr" (optStreamVal _stderr)).set "cwd" (cwdVal a.cwd)).set "env" (.vEnv env0)
  if sys.isWin32 then
    -- if cwd: kwargs['cwd'] = cwd   (truthiness: non-None, non-empty)
    let kwargs2 : Kwargs := match a.cwd with
      | some c => if c = "" then kwargs1 else kwargs1.set "cwd" (.vStr c)
      | none => kwargs1
    -- interrupt_event = create_interrupt_event()
    let interrupt_event := sys.interruptEvent
    -- env["JPY_INTERRUPT_EVENT"] = str(interrupt_event)
    let env1 := env0.set "JPY_INTERRUPT_EVENT" (toString interrupt_event)
    -- env["IPY_INTERRUPT_EVENT"] = env["JPY_INTERRUPT_EVENT"]
    let env2 := env1.set "IPY_INTERRUPT_EVENT"
      ((env1.get? "JPY_INTERRUPT_EVENT").getD "")
    -- if independent: kwargs['creationflags'] = CREATE_NEW_PROCESS_GROUP
    -- else: handle = DuplicateHandle(pid, pid, pid, 0, True, DUPLICATE_SAME_ACCESS)
    --       env['JPY_PARENT_PID'] = str(int(handle))
    let kwargs3 : Kwargs :=
      if a.independent then kwargs2.set "creationflags" (.vNat CREATE_NEW_PROCESS_GROUP)
      else kwargs2
    let env3 : EnvDict :=
      if a.independent then env2
      else env2.set "JPY_PARENT_PID" (toString sys.dupHandle)
    -- if redirect_out: kwargs['creationflags'] =
    --     kwargs.setdefault('creationflags', 0) | CREATE_NO_WINDOW
    let kwargs4 : Kwargs :=
      if redirect_out then
        kwargs3.set "creationflags"
          (.vNat (Nat.lor ((kwargs3.get? "creationflags").getD (.vNat 0)).asNat
                          CREATE_NO_WINDOW))
      else kwargs3
    -- kwargs['close_fds'] = False
    let kwargs5 := kwargs4.set "close_fds" (.vBool false)
    -- kwargs['env'] is the same object as env, hence reflects all
    -- mutations made after kwargs.update(main_args)
    let kwargsF := kwargs5.set "env" (.vEnv env3)
    { kwargs := kwargsF
      interrupt_event := some interrupt_event
      callerEnvAfter := a.env.map (fun _ => env3)
      callerKwAfter := a.kw
      blackhole := blackhole }
  else
    -- interrupt_event = None; kwargs['start_new_session'] = True
    let kwargs2 := kwargs1.set "start_new_session" (.vBool true)
    -- if not independent: env['JPY_PARENT_PID'] = str(os.getpid())
    let env1 : EnvDict :=
      if a.independent then env0
      else env0.set "JPY_PARENT_PID" (toString sys.pid)
    let kwargsF := kwargs2.set "env" (.vEnv env1)
    { kwargs := kwargsF
      interrupt_event := none
      callerEnvAfter := a.env.map (fun _ => env1)
      callerKwAfter := a.kw
      blackhole := blackhole }

/-- The spawned child process as the parent sees it: its pid and, when the
spawn was performed with `stdin=PIPE`, the parent-side write end of the
pipe `Popen`/`create_subprocess_exec` created (`proc.stdin`). -/
structure Proc where
  pid : Nat
  stdinHandle : Option Nat
  deriving DecidableEq, Repr

/-- Effects of `finish_process_launch`: the `win32_interrupt_event`
attribute stored on the process object (set exactly on win32, with the
given value), and the handles closed. -/
structure FinishEffects where
  win32InterruptEvent : Option (Option Nat)
  closedHandles : List Nat
  deriving DecidableEq, Repr

/-- Embedding of `finish_process_launch` (launcher.py, lines 221-230). -/
def finish_process_launch (sys : Sys) (proc : Proc) (stdin : Option StreamSpec)
    (interrupt_event : Option Nat) : FinishEffects :=
  { win32InterruptEvent := if sys.isWin32 then some interrupt_event else none
    closedHandles :=
      if stdin.isNone then
        match proc.stdinHandle with
        | some h => [h]
        | none => []
      else [] }

/-- The spawn primitive (`Popen` / `asyncio.create_subprocess_exec`),
abstracted: given the (expanded) argv and the keyword dict, it either
raises (an exception described by a string) or returns the child pid. -/
abbrev SpawnOracle := List String → Kwargs → Except String Nat

/-- One diagnostic record produced by `get_logger().error(msg)`: the
(expanded) command, the `PATH` in effect, and the spawn keyword arguments
with the `env` entry removed. -/
structure LogRecord where
  cmd : List String
  path : String
  without_env : Kwargs
  deriving DecidableEq, Repr

/-- An exception escaping `launch_kernel`: the original spawn exception
re-raised, or the `AttributeError` raised inside the handler when
`env.get(...)` is evaluated with `env` still `None`. -/
inductive PyErr where
  | spawn : String → PyErr
  | attributeError : PyErr
  deriving DecidableEq, Repr

/-- A successful launch: the process object and the effects of
`finish_process_launch` on it. -/
structure LaunchOutcome where
  proc : Proc
  finish : FinishEffects
  deriving DecidableEq, Repr

instance {ε α : Type} [DecidableEq ε] [DecidableEq α] : DecidableEq (Except ε α) :=
  fun a b =>
    match a, b with
    | .error e, .error f =>
        if h : e = f then .isTrue (by rw [h]) else .isFalse (by simp [h])
    | .ok x, .ok y =>
        if h : x = y then .isTrue (by rw [h]) else .isFalse (by simp [h])
    | .error _, .ok _ => .isFalse (by simp)
    | .ok _, .error _ => .isFalse (by simp)

/-- Everything observable about one `launch_kernel` call: its result (a
process or an exception), the log records emitted, and what
`prepare_process_args` did (including to caller-owned dicts). -/
structure LaunchRun where
  result : Except PyErr LaunchOutcome
  logs : List LogRecord
  prep : PrepResult
  deriving DecidableEq, Repr

/-- Embedding of `launch_kernel` (launcher.py, lines 14-70).  The
`Popen` call is the `spawn` oracle; when it returns a pid, `proc.stdin`
exists exactly when the spawn was performed with `stdin=PIPE` (documented
`subprocess` behaviour). -/
def launch_kernel (sys : Sys) (spawn : SpawnOracle) (cmd : List String)
    (a : PrepInput) : LaunchRun :=
  let pr := prepare_process_args sys a
  -- cmd = list(map(os.path.expanduser, cmd))
  let cmd2 := cmd.map sys.expanduser
  match spawn cmd2 pr.kwargs with
  | .error exc =>
      -- except block: without_env = {k: v for k, v in kwargs.items() if k != 'env'}
      -- msg = msg.format(cmd, env.get('PATH', os.defpath), without_env)
      -- NOTE: `env` here is the *parameter* of launch_kernel, not the local
      -- rebinding inside prepare_process_args; when the caller passed
      -- env=None, `env.get` raises AttributeError before anything is logged.
      match a.env with
      | none => { result := .error .attributeError, logs := [], prep := pr }
      | some _ =>
          -- the caller's dict was mutated in place by prepare_process_args,
          -- so the PATH lookup sees its post-call contents
          let envNow : EnvDict := pr.callerEnvAfter.getD []
          let path := (envNow.get? "PATH").getD sys.defpath
          { result := .error (.spawn exc)
            logs := [{ cmd := cmd2, path := path,
                       without_env := pr.kwargs.without "env" }]
            prep := pr }
  | .ok p =>
      let proc : Proc :=
        { pid := p
          stdinHandle :=
            if pr.kwargs.get? "stdin" = some (.vStream .pipe) then some sys.stdinPipe
            else none }
      let fin := finish_process_launch sys proc a.stdin pr.interrupt_event
      { result := .ok { proc := proc, finish := fin }, logs := [], prep := pr }

/-- Embedding of `async_launch_kernel` (launcher.py, lines 73-129); its
body repeats `launch_kernel`'s with `await asyncio.create_subprocess_exec`
in place of `Popen`, both abstracted as the `spawn` oracle. -/
def async_launch_kernel (sys : Sys) (spawn : SpawnOracle) (cmd : List String)
    (a : PrepInput) : LaunchRun :=
  let pr := prepare_process_args sys a
  let cmd2 := cmd.map sys.expanduser
  match spawn cmd2 pr.kwargs with
  | .error exc =>
      match a.env with
      | none => { result := .error .attributeError, logs := [], prep := pr }
      | some _ =>
          let envNow : EnvDict := pr.callerEnvAfter.getD []
          let path := (envNow.get? "PATH").getD sys.defpath
          { result := .error (.spawn exc)
            logs := [{ cmd := cmd2, path := path,
                       without_env := pr.kwargs.without "env" }]
            prep := pr }
  | .ok p =>
      let proc : Proc :=
        { pid := p
          stdinHandle :=
            if pr.kwargs.get? "stdin" = some (.vStream .pipe) then some sys.stdinPipe
            else none }
      let fin := finish_process_launch sys proc a.stdin pr.interrupt_event
      { result := .ok { proc := proc, finish := fin }, prep := pr, logs := [] }

/-- The `env` entry of the spawn keyword dict. -/
def kwargsEnv (k : Kwargs) : EnvDict :=
  match k.get? "env" with
  | some (.vEnv e) => e
  | _ => []

/-- The `creationflags` entry of the spawn keyword dict (0 when absent). -/
def creationflagsOf (k : Kwargs) : Nat :=
  ((k.get? "creationflags").getD (.vNat 0)).asNat

/-- The environment after the two interrupt-event injections performed at
the top of the win32 branch, before the parent-pid decision. -/
def winBaseEnv (sys : Sys) (a : PrepInput) : EnvDict :=
  ((a.env.getD sys.environ).set "JPY_INTERRUPT_EVENT"
      (toString sys.interruptEvent)).set "IPY_INTERRUPT_EVENT"
      (toString sys.interruptEvent)

/-! ### Concrete fixtures for witnesses and counterexamples -/

/-- A concrete POSIX system. -/
def sysPosix : Sys :=
  { isWin32 := false, windowed := false, pid := 42
    environ := [("PATH", "/usr/bin")], defpath := ":/bin"
    devnull := 3, interruptEvent := 100, dupHandle := 200, stdinPipe := 7
    expanduser := fun s => s }

/-- A concrete win32 system running under `pythonw.exe`. -/
def sysWinw : Sys :=
  { isWin32 := true, windowed := true, pid := 42
    environ := [("PATH", "C:\\bin")], defpath := ";C:\\bin"
    devnull := 3, interruptEvent := 100, dupHandle := 200, stdinPipe := 7
    expanduser := fun s => s }

/-- A concrete win32 system running under a normal interpreter. -/
def sysWin : Sys :=
  { sysWinw with windowed := false }

/-- All-default arguments (every named parameter at its Python default). -/
def argsDefault : PrepInput :=
  { stdin := none, stdout := none, stderr := none, env := none
    independent := false, cwd := none, kw := [] }

/-- Arguments with caller-supplied stdout and stderr streams. -/
def argsSupplied : PrepInput :=
  { argsDefault with stdout := some (.supplied 8), stderr := some (.supplied 9) }

/-- Arguments with a caller-supplied environment dict of one entry. -/
def argsWithEnv : PrepInput :=
  { argsDefault with env := some [("A", "1")] }

/-- A spawn oracle that always succeeds with pid 555. -/
def spawnOk : SpawnOracle := fun _ _ => .ok 555

/-- A spawn oracle that always raises (`FileNotFoundError`). -/
def spawnFail : SpawnOracle := fun _ _ => .error "FileNotFoundError"

/-- The launch outcome of `spawnOk` under `sysPosix` with default args. -/
def outPosix : LaunchOutcome :=
  { proc := { pid := 555, stdinHandle := some 7 }
    finish := { win32InterruptEvent := none, closedHandles := [7] } }

/-- The launch outcome of `spawnOk` under `sysWin` with default args. -/
def outWin : LaunchOutcome :=
  { proc := { pid := 555, stdinHandle := some 7 }
    finish := { win32InterruptEvent := some (some 100), closedHandles := [7] } }

/-! ### Helper lemmas -/

theorem Dict.get?_set_self {α : Type} (d : Dict α) (k : String) (v : α) :
    (d.set k v).get? k = some v := by
  induction d with
  | nil => simp [Dict.set, Dict.get?]
  | cons p rest ih =>
      by_cases h : p.1 = k
      · simp [Dict.set, h, Dict.get?]
      · simp [Dict.set, h, Dict.get?, ih]

theorem Dict.get?_set_of_ne {α : Type} (d : Dict α) (k k2 : String) (v : α)
    (h : k ≠ k2) : (d.set k v).get? k2 = d.get? k2 := by
  induction d with
  | nil => simp [Dict.set, Dict.get?, h]
  | cons p rest ih =>
      by_cases hp : p.1 = k
      · simp [Dict.set, hp, Dict.get?, h]
      · simp [Dict.set, hp, Dict.get?, ih]

theorem Dict.get?_ite {α : Type} (c : Prop) [Decidable c] (d d2 : Dict α)
    (k : String) :
    Dict.get? (if c then d else d2) k = if c then d.get? k else d2.get? k := by
  split <;> rfl

theorem land_lor_self (a b : Nat) : Nat.land (Nat.lor a b) b = b := by
  apply Nat.eq_of_testBit_eq
  intro i
  change ((a ||| b) &&& b).testBit i = b.testBit i
  simp only [Nat.testBit_land, Nat.testBit_lor]
  cases Nat.testBit a i <;> cases Nat.testBit b i <;> decide

theorem prep_interrupt_event_win (sys : Sys) (a : PrepInput)
    (h : sys.isWin32 = true) :
    (prepare_process_args sys a).interrupt_event = some sys.interruptEvent := by
  simp [prepare_process_args, h]

/-! ### Claims -/

/-- C1, counterexample: on POSIX with `independent=False`, a caller-supplied
environment mapping does not keep its original contents across the call —
`prepare_process_args` writes `JPY_PARENT_PID` into the caller's dict. -/
theorem claim1_counterexample :
    ¬ ((prepare_process_args sysPosix argsWithEnv).callerEnvAfter
        = some [("A", "1")]) := by decide

/-- C1 (amended): when the caller supplies an environment mapping,
`prepare_process_args` mutates it in place — afterwards the caller's dict
holds exactly the env dict handed to spawn, and on POSIX with
`independent=False` that is the caller's dict with `JPY_PARENT_PID`
injected.  Only when no mapping is supplied is a copy (of `os.environ`)
made, so nothing is written back to any caller-owned mapping. -/
theorem claim1_env_aliased_and_mutated (sys : Sys) (a : PrepInput) :
    (a.env = none → (prepare_process_args sys a).callerEnvAfter = none) ∧
    (∀ e, a.env = some e →
        (prepare_process_args sys a).callerEnvAfter =
          some (kwargsEnv (prepare_process_args sys a).kwargs)) ∧
    (∀ e, a.env = some e → sys.isWin32 = false → a.independent = false →
        (prepare_process_args sys a).callerEnvAfter =
          some (e.set "JPY_PARENT_PID" (toString sys.pid))) := by
  refine ⟨?_, ?_, ?_⟩
  · intro he
    cases hw32 : sys.isWin32 <;> simp [prepare_process_args, hw32, he]
  · intro e he
    cases hw32 : sys.isWin32 <;>
      rcases hc : a.cwd with _ | c <;>
        simp [prepare_process_args, kwargsEnv, hw32, he, hc,
          Dict.get?_set_self, Dict.get?_set_of_ne, Dict.get?_ite]
  · intro e he hw32 hi
    simp [prepare_process_args, hw32, he, hi]

/-- C1, witness for the amended claim at a concrete input. -/
theorem claim1_witness :
    (prepare_process_args sysPosix argsWithEnv).callerEnvAfter =
      some (Dict.set [("A", "1")] "JPY_PARENT_PID" (toString sysPosix.pid)) :=
  (claim1_env_aliased_and_mutated sysPosix argsWithEnv).2.2 [("A", "1")] rfl rfl rfl

/-- C2 (code bug): with `env=None` and a failing spawn, `launch_kernel`
raises `AttributeError` from inside its own exception handler (the handler
evaluates `env.get('PATH', os.defpath)` on the still-`None` parameter),
logs nothing, and does not re-raise the original spawn exception; with a
caller-supplied env dict the claimed log-then-re-raise behaviour does
happen. -/
theorem claim2_env_none_handler_bug :
    (launch_kernel sysPosix spawnFail ["kernel"] argsDefault).result =
      .error .attributeError ∧
    (launch_kernel sysPosix spawnFail ["kernel"] argsDefault).logs = [] ∧
    (launch_kernel sysPosix spawnFail ["kernel"] argsWithEnv).result =
      .error (.spawn "FileNotFoundError") ∧
    (launch_kernel sysPosix spawnFail ["kernel"] argsWithEnv).logs ≠ [] := by
  decide

/-- C3: for a successful launch with `stdin=None`, the spawn receives
`stdin=PIPE` and the parent-side pipe end is the one handle closed right
after the spawn; with caller-supplied stdin, the supplied stream is passed
through and nothing is closed. -/
theorem claim3_stdin_pipe_substituted (sys : Sys) (spawn : SpawnOracle)
    (cmd : List String) (a : PrepInput) (out : LaunchOutcome)
    (hok : (launch_kernel sys spawn cmd a).result = .ok out) :
    (a.stdin = none →
        (prepare_process_args sys a).kwargs.get? "stdin" = some (.vStream .pipe) ∧
        out.finish.closedHandles = [sys.stdinPipe]) ∧
    (∀ s, a.stdin = some s →
        (prepare_process_args sys a).kwargs.get? "stdin" = some (.vStream s) ∧
        out.finish.closedHandles = []) := by
  have hstdin : (prepare_process_args sys a).kwargs.get? "stdin" =
      some (.vStream (a.stdin.getD .pipe)) := by
    cases hw32 : sys.isWin32 <;>
      cases hw : sys.windowed <;>
        rcases hc : a.cwd with _ | c <;>
          cases hs : a.stdin <;>
            simp [prepare_process_args, hw32, hw, hc, hs,
              Dict.get?_set_self, Dict.get?_set_of_ne, Dict.get?_ite]
  simp only [launch_kernel] at hok
  cases hs : spawn (cmd.map sys.expanduser) (prepare_process_args sys a).kwargs with
  | error e =>
      rw [hs] at hok
      cases he : a.env <;> rw [he] at hok <;> simp at hok
  | ok p =>
      rw [hs] at hok
      simp only [Except.ok.injEq] at hok
      rw [← hok]
      constructor
      · intro hn
        rw [hn] at hstdin
        refine ⟨hstdin, ?_⟩
        simp [finish_process_launch, hstdin, hn]
      · intro s hsome
        rw [hsome] at hstdin
        refine ⟨hstdin, ?_⟩
        simp [finish_process_launch, hsome]

/-- C3, witness: the default launch on `sysPosix` substitutes a pipe and
closes its parent-side end. -/
theorem claim3_witness :
    (prepare_process_args sysPosix argsDefault).kwargs.get? "stdin" =
      some (.vStream .pipe) ∧
    outPosix.finish.closedHandles = [sysPosix.stdinPipe] :=
  (claim3_stdin_pipe_substituted sysPosix spawnOk ["cmd"] argsDefault outPosix
      (by decide)).1 rfl

/-- C4: on POSIX the spawn arguments always request a new session
(`start_new_session=True`, whatever `independent` is), and the env handed
to spawn is the base env with `str(os.getpid())` injected under
`JPY_PARENT_PID` exactly when `independent` is false, and the base env
unchanged when `independent` is true. -/
theorem claim4_posix_session_parent_pid (sys : Sys) (a : PrepInput)
    (h : sys.isWin32 = false) :
    (prepare_process_args sys a).kwargs.get? "start_new_session" =
      some (.vBool true) ∧
    kwargsEnv (prepare_process_args sys a).kwargs =
      (if a.independent then a.env.getD sys.environ
       else (a.env.getD sys.environ).set "JPY_PARENT_PID" (toString sys.pid)) := by
  constructor
  · simp [prepare_process_args, h, Dict.get?_set_self, Dict.get?_set_of_ne]
  · cases hi : a.independent <;>
      simp [prepare_process_args, kwargsEnv, h, hi, Dict.get?_set_self]

/-- C4, witness at `sysPosix` with default arguments. -/
theorem claim4_witness :
    (prepare_process_args sysPosix argsDefault).kwargs.get? "start_new_session" =
      some (.vBool true) ∧
    kwargsEnv (prepare_process_args sysPosix argsDefault).kwargs =
      (if argsDefault.independent then argsDefault.env.getD sysPosix.environ
       else (argsDefault.env.getD sysPosix.environ).set "JPY_PARENT_PID"
              (toString sysPosix.pid)) :=
  claim4_posix_session_parent_pid sysPosix argsDefault rfl

/-- C5: on win32 with `independent=True` the creation flags include
`CREATE_NEW_PROCESS_GROUP` and the env handed to spawn carries only the
interrupt-event injections (no parent handle); with `independent=False`
the duplicated parent handle is additionally injected under
`JPY_PARENT_PID`. -/
theorem claim5_win32_independent_parent_handle (sys : Sys) (a : PrepInput)
    (h : sys.isWin32 = true) :
    (a.independent = true →
        Nat.land (creationflagsOf (prepare_process_args sys a).kwargs)
            CREATE_NEW_PROCESS_GROUP = CREATE_NEW_PROCESS_GROUP ∧
        kwargsEnv (prepare_process_args sys a).kwargs = winBaseEnv sys a) ∧
    (a.independent = false →
        kwargsEnv (prepare_process_args sys a).kwargs =
          (winBaseEnv sys a).set "JPY_PARENT_PID" (toString sys.dupHandle)) := by
  constructor
  · intro hi
    constructor
    · cases hw : sys.windowed <;>
        rcases hc : a.cwd with _ | c <;>
          simp [prepare_process_args, creationflagsOf, h, hi, hw, hc,
            Dict.get?_set_self, Dict.get?_set_of_ne, Dict.get?_ite,
            PyVal.asNat] <;>
          decide
    · rcases hc : a.cwd with _ | c <;>
        simp [prepare_process_args, kwargsEnv, winBaseEnv, h, hi, hc,
          Dict.get?_set_self, Dict.get?_set_of_ne, Dict.get?_ite]
  · intro hi
    rcases hc : a.cwd with _ | c <;>
      simp [prepare_process_args, kwargsEnv, winBaseEnv, h, hi, hc,
        Dict.get?_set_self, Dict.get?_set_of_ne, Dict.get?_ite]

/-- C5, witness at `sysWin` for both values of `independent`. -/
theorem claim5_witness :
    (Nat.land (creationflagsOf (prepare_process_args sysWin
          { argsDefault with independent := true }).kwargs)
        CREATE_NEW_PROCESS_GROUP = CREATE_NEW_PROCESS_GROUP ∧
      kwargsEnv (prepare_process_args sysWin
          { argsDefault with independent := true }).kwargs =
        winBaseEnv sysWin { argsDefault with independent := true }) ∧
    kwargsEnv (prepare_process_args sysWin argsDefault).kwargs =
      (winBaseEnv sysWin argsDefault).set "JPY_PARENT_PID"
        (toString sysWin.dupHandle) :=
  ⟨(claim5_win32_independent_parent_handle sysWin
      { argsDefault with independent := true } rfl).1 rfl,
   (claim5_win32_independent_parent_handle sysWin argsDefault rfl).2 rfl⟩

/-- C6: on win32 the env handed to spawn carries the interrupt-event
handle under `JPY_INTERRUPT_EVENT` and under the legacy alias
`IPY_INTERRUPT_EVENT` with the same value, and after a successful spawn
the interrupt event is attached to the returned process object. -/
theorem claim6_win32_interrupt_event (sys : Sys) (spawn : SpawnOracle)
    (cmd : List String) (a : PrepInput) (out : LaunchOutcome)
    (h : sys.isWin32 = true)
    (hok : (launch_kernel sys spawn cmd a).result = .ok out) :
    (kwargsEnv (prepare_process_args sys a).kwargs).get? "JPY_INTERRUPT_EVENT" =
      some (toString sys.interruptEvent) ∧
    (kwargsEnv (prepare_process_args sys a).kwargs).get? "IPY_INTERRUPT_EVENT" =
      some (toString sys.interruptEvent) ∧
    out.finish.win32InterruptEvent = some (some sys.interruptEvent) := by
  refine ⟨?_, ?_, ?_⟩
  · cases hi : a.independent <;>
      rcases hc : a.cwd with _ | c <;>
        simp [prepare_process_args, kwargsEnv, h, hi, hc,
          Dict.get?_set_self, Dict.get?_set_of_ne, Dict.get?_ite]
  · cases hi : a.independent <;>
      rcases hc : a.cwd with _ | c <;>
        simp [prepare_process_args, kwargsEnv, h, hi, hc,
          Dict.get?_set_self, Dict.get?_set_of_ne, Dict.get?_ite]
  · simp only [launch_kernel] at hok
    cases hs : spawn (cmd.map sys.expanduser) (prepare_process_args sys a).kwargs with
    | error e =>
        rw [hs] at hok
        cases he : a.env <;> rw [he] at hok <;> simp at hok
    | ok p =>
        rw [hs] at hok
        simp only [Except.ok.injEq] at hok
        rw [← hok]
        simp [finish_process_launch, h, prep_interrupt_event_win sys a h]

/-- C6, witness: a successful default launch on `sysWin`. -/
theorem claim6_witness :
    (kwargsEnv (prepare_process_args sysWin argsDefault).kwargs).get?
        "JPY_INTERRUPT_EVENT" = some (toString sysWin.interruptEvent) ∧
    (kwargsEnv (prepare_process_args sysWin argsDefault).kwargs).get?
        "IPY_INTERRUPT_EVENT" = some (toString sysWin.interruptEvent) ∧
    outWin.finish.win32InterruptEvent = some (some sysWin.interruptEvent) :=
  claim6_win32_interrupt_event sysWin spawnOk ["cmd"] argsDefault outWin rfl
    (by decide)

/-- C7: under a windowed interpreter, stdout and stderr are redirected to
the discard sink exactly when not supplied (a supplied stream is passed
through); if additionally on win32 and redirection occurred, the creation
flags include `CREATE_NO_WINDOW`; under a normal interpreter, unsupplied
stdout/stderr are passed through unchanged (as Python `None`). -/
theorem claim7_windowed_redirection (sys : Sys) (a : PrepInput) :
    (sys.windowed = true →
        (prepare_process_args sys a).kwargs.get? "stdout" =
          some (.vStream (a.stdout.getD (.blackhole sys.devnull))) ∧
        (prepare_process_args sys a).kwargs.get? "stderr" =
          some (.vStream (a.stderr.getD (.blackhole sys.devnull))) ∧
        (sys.isWin32 = true → (a.stdout = none ∨ a.stderr = none) →
            Nat.land (creationflagsOf (prepare_process_args sys a).kwargs)
              CREATE_NO_WINDOW = CREATE_NO_WINDOW)) ∧
    (sys.windowed = false →
        (prepare_process_args sys a).kwargs.get? "stdout" =
          some (optStreamVal a.stdout) ∧
        (prepare_process_args sys a).kwargs.get? "stderr" =
          some (optStreamVal a.stderr)) := by
  constructor
  · intro hw
    refine ⟨?_, ?_, ?_⟩
    · cases hw32 : sys.isWin32 <;>
        rcases hc : a.cwd with _ | c <;>
          cases ho : a.stdout <;>
            simp [prepare_process_args, optStreamVal, hw, hw32, hc, ho,
              Dict.get?_set_self, Dict.get?_set_of_ne, Dict.get?_ite]
    · cases hw32 : sys.isWin32 <;>
        rcases hc : a.cwd with _ | c <;>
          cases he : a.stderr <;>
            simp [prepare_process_args, optStreamVal, hw, hw32, hc, he,
              Dict.get?_set_self, Dict.get?_set_of_ne, Dict.get?_ite]
    · intro hw32 _
      rcases hc : a.cwd with _ | c <;>
        simp [prepare_process_args, creationflagsOf, hw, hw32, hc,
          Dict.get?_set_self, Dict.get?_set_of_ne, Dict.get?_ite,
          PyVal.asNat, land_lor_self]
  · intro hw
    cases hw32 : sys.isWin32 <;>
      rcases hc : a.cwd with _ | c <;>
        simp [prepare_process_args, optStreamVal, hw, hw32, hc,
          Dict.get?_set_self, Dict.get?_set_of_ne, Dict.get?_ite]

/-- C7, witness at `sysWinw` (windowed win32) with nothing supplied. -/
theorem claim7_witness :
    (prepare_process_args sysWinw argsDefault).kwargs.get? "stdout" =
      some (.vStream (.blackhole sysWinw.devnull)) ∧
    (prepare_process_args sysWinw argsDefault).kwargs.get? "stderr" =
      some (.vStream (.blackhole sysWinw.devnull)) ∧
    Nat.land (creationflagsOf (prepare_process_args sysWinw argsDefault).kwargs)
      CREATE_NO_WINDOW = CREATE_NO_WINDOW :=
  ⟨((claim7_windowed_redirection sysWinw argsDefault).1 rfl).1,
   ((claim7_windowed_redirection sysWinw argsDefault).1 rfl).2.1,
   ((claim7_windowed_redirection sysWinw argsDefault).1 rfl).2.2 rfl (Or.inl rfl)⟩

/-- C8: for every input and every behaviour of the spawn primitive, the
blocking launch and the non-blocking launch produce identical runs — the
same spawn arguments, argv expansion, failure logging and re-raise, and
post-spawn finishing; they differ only in how the spawn itself suspends,
which both embeddings abstract as the same oracle. -/
theorem claim8_sync_async_agree (sys : Sys) (spawn : SpawnOracle)
    (cmd : List String) (a : PrepInput) :
    launch_kernel sys spawn cmd a = async_launch_kernel sys spawn cmd a := rfl

/-- C9: `prepare_process_args` leaves the caller's `**kw` dict unchanged
(it works on a copy), and each of the five computed entries — stdin,
stdout, stderr, cwd, env — of the returned spawn dict is independent of
what the caller placed in `**kw` under those names (the computed values
override them). -/
theorem claim9_kw_copied_overridden (sys : Sys) (a : PrepInput) :
    (prepare_process_args sys a).callerKwAfter = a.kw ∧
    ∀ k, k ∈ (["stdin", "stdout", "stderr", "cwd", "env"] : List String) →
      (prepare_process_args sys a).kwargs.get? k =
        (prepare_process_args sys { a with kw := [] }).kwargs.get? k := by
  constructor
  · cases hw32 : sys.isWin32 <;> simp [prepare_process_args, hw32]
  · intro k hk
    simp only [List.mem_cons, List.not_mem_nil, or_false] at hk
    rcases hk with rfl | rfl | rfl | rfl | rfl <;>
      cases hw32 : sys.isWin32 <;>
        cases hw : sys.windowed <;>
          rcases hc : a.cwd with _ | c <;>
            simp [prepare_process_args, hw32, hw, hc,
              Dict.get?_set_self, Dict.get?_set_of_ne, Dict.get?_ite]

/-- C9, witness: a caller-supplied `kw` entry named `stdin` survives in the
caller's dict and is overridden in the spawn dict. -/
theorem claim9_witness :
    (prepare_process_args sysPosix
        { argsDefault with kw := [("stdin", .vOther 9)] }).callerKwAfter =
      [("stdin", PyVal.vOther 9)] ∧
    (prepare_process_args sysPosix
        { argsDefault with kw := [("stdin", .vOther 9)] }).kwargs.get? "stdin" =
      (prepare_process_args sysPosix argsDefault).kwargs.get? "stdin" :=
  ⟨(claim9_kw_copied_overridden sysPosix
      { argsDefault with kw := [("stdin", .vOther 9)] }).1,
   (claim9_kw_copied_overridden sysPosix
      { argsDefault with kw := [("stdin", .vOther 9)] }).2 "stdin" (by decide)⟩

/-- C10: under a windowed interpreter the discard-sink handle is opened on
every call — also when the caller supplied both stdout and stderr, in which
case it goes unused (the supplied streams are passed to spawn) and is never
closed (the only handle a launch ever closes is the stdin pipe's parent
end); when both are unsupplied, the one opened handle serves as both the
child's stdout and stderr. -/
theorem claim10_blackhole_always_opened (sys : Sys) (a : PrepInput)
    (h : sys.windowed = true) :
    (prepare_process_args sys a).blackhole = some sys.devnull ∧
    (∀ so se, a.stdout = some so → a.stderr = some se →
        (prepare_process_args sys a).kwargs.get? "stdout" =
          some (.vStream so) ∧
        (prepare_process_args sys a).kwargs.get? "stderr" =
          some (.vStream se)) ∧
    (a.stdout = none → a.stderr = none →
        (prepare_process_args sys a).kwargs.get? "stdout" =
          some (.vStream (.blackhole sys.devnull)) ∧
        (prepare_process_args sys a).kwargs.get? "stderr" =
          some (.vStream (.blackhole sys.devnull))) ∧
    (∀ spawn cmd out, (launch_kernel sys spawn cmd a).result = .ok out →
        ∀ hd, hd ∈ out.finish.closedHandles → hd = sys.stdinPipe) := by
  refine ⟨?_, ?_, ?_, ?_⟩
  · cases hw32 : sys.isWin32 <;> simp [prepare_process_args, h, hw32]
  · intro so se hso hse
    constructor <;>
      (cases hw32 : sys.isWin32 <;>
        rcases hc : a.cwd with _ | c <;>
          simp [prepare_process_args, optStreamVal, h, hw32, hc, hso, hse,
            Dict.get?_set_self, Dict.get?_set_of_ne, Dict.get?_ite])
  · intro hso hse
    constructor <;>
      (cases hw32 : sys.isWin32 <;>
        rcases hc : a.cwd with _ | c <;>
          simp [prepare_process_args, optStreamVal, h, hw32, hc, hso, hse,
            Dict.get?_set_self, Dict.get?_set_of_ne, Dict.get?_ite])
  · intro spawn cmd out hok hd hmem
    simp only [launch_kernel] at hok
    cases hs : spawn (cmd.map sys.expanduser) (prepare_process_args sys a).kwargs with
    | error e =>
        rw [hs] at hok
        cases he : a.env <;> rw [he] at hok <;> simp at hok
    | ok p =>
        rw [hs] at hok
        simp only [Except.ok.injEq] at hok
        rw [← hok] at hmem
        by_cases hp : Dict.get? (prepare_process_args sys a).kwargs "stdin" =
            some (PyVal.vStream StreamSpec.pipe) <;>
          cases hn : a.stdin <;>
            simp [finish_process_launch, hp, hn] at hmem <;>
              exact hmem

/-- C10, witness: under `sysWinw` with both streams supplied, the discard
sink is still opened and both supplied streams reach the spawn dict. -/
theorem claim10_witness :
    (prepare_process_args sysWinw argsSupplied).blackhole =
      some sysWinw.devnull ∧
    (prepare_process_args sysWinw argsSupplied).kwargs.get? "stdout" =
      some (.vStream (.supplied 8)) ∧
    (prepare_process_args sysWinw argsSupplied).kwargs.get? "stderr" =
      some (.vStream (.supplied 9)) :=
  ⟨(claim10_blackhole_always_opened sysWinw argsSupplied rfl).1,
   ((claim10_blackhole_always_opened sysWinw argsSupplied rfl).2.1
      (.supplied 8) (.supplied 9) rfl rfl).1,
   ((claim10_blackhole_always_opened sysWinw argsSupplied rfl).2.1
      (.supplied 8) (.supplied 9) rfl rfl).2⟩

end Launcher
